import Mathlib

/-!
Verification of the workout-generation module
(`backend/app/ai_modules/workout_generator.py` and `backend/app/models.py`).

The module's pipeline is: format a prompt for the LLM, call the remote
model, parse its raw text as JSON (`json.loads`), validate that the five
required top-level fields are present, and persist a `WorkoutRoutine`
row scoped to the calling user.  The embedding below models the pipeline
from the point where the raw model response is parsed: `json.loads` is
the Python standard library's strict JSON parser, and its outcome is
represented as `Option JsonValue` (`none` = `json.JSONDecodeError`,
`some v` = the parsed value).  The database session is modelled as an
explicit state value threaded through the handlers.
-/

/-- A parsed JSON value, the output type of Python's `json.loads`.
Objects are association lists; `json.loads` produces `dict`s, so an
object arising from a parse has pairwise distinct keys (duplicate keys
in the text are collapsed, last wins). Numbers are modelled as integers;
no claim depends on fractional numeric values. -/
inductive JsonValue where
  | null
  | bool (b : Bool)
  | num (n : Int)
  | str (s : String)
  | arr (xs : List JsonValue)
  | obj (fields : List (String × JsonValue))

/-- Errors arising on the generate path
(`workout_generator.py`, `generate_workout`, lines 116-148).
Each constructor is a distinct Python exception raised by a distinct
program point:
* `malformedResponse` — `json.JSONDecodeError` from `json.loads` (line 117),
  caught at line 136;
* `schemaViolation f` — `ValueError(f"Missing required field: {field}")`
  raised by the required-field loop (lines 120-123);
* `notIterable` — `TypeError` from `field not in workout_data` when the
  parsed value is not a container (`int`, `float`, `bool`, `None`);
* `splatNonMapping` — `TypeError` from `**workout_data` when the parsed
  value is not a `dict` (line 128);
* `duplicateKeyword k` — `TypeError` when `workout_data` itself carries
  key `k` already passed positionally (`user_id`, line 127);
* `invalidKeyword k` — `TypeError` from the SQLAlchemy declarative
  constructor (`models.py`, `WorkoutRoutine`): a keyword argument `k`
  with `hasattr(cls_, k)` false — not an attribute of the model class —
  is rejected. -/
inductive GenError where
  | malformedResponse
  | schemaViolation (field : String)
  | notIterable
  | splatNonMapping
  | duplicateKeyword (key : String)
  | invalidKeyword (key : String)
deriving DecidableEq, Repr

/-- `required_fields` (line 120): the fixed left-to-right list the
validation loop iterates over. -/
def required_fields : List String :=
  ["name", "description", "exercises", "tips", "progression"]

/-- Boolean check: is `sub` a prefix of `l` (element lists of strings). -/
def charsHavePre (sub l : List Char) : Bool :=
  match sub, l with
  | [], _ => true
  | _ :: _, [] => false
  | a :: as, b :: bs => a == b && charsHavePre as bs

/-- Boolean check: does `sub` occur contiguously inside `l`. -/
def charsHaveSub (sub : List Char) : List Char → Bool
  | [] => sub.isEmpty
  | b :: bs => charsHavePre sub (b :: bs) || charsHaveSub sub bs

/-- Python's `key in value` (membership test) on a parsed JSON value:
on a `dict` it tests key membership, on a `list` element equality with
the string, on a `str` substring containment; on `int`, `bool` and
`None` it raises `TypeError: argument of type ... is not iterable`. -/
def pyContainsKey (f : String) : JsonValue → Except GenError Bool
  | .obj fields => .ok (fields.any (fun kv => kv.1 == f))
  | .arr xs => .ok (xs.any (fun v => match v with
      | .str s => s == f
      | _ => false))
  | .str s => .ok (charsHaveSub f.data s.data)
  | .num _ => .error .notIterable
  | .bool _ => .error .notIterable
  | .null => .error .notIterable

/-- The required-field loop of `generate_workout` (lines 120-123):
for each field of `fields` in order, raise
`ValueError("Missing required field: ...")` at the first one absent
from the parsed value. -/
def checkRequired (fields : List String) (v : JsonValue) : Except GenError Unit :=
  match fields with
  | [] => .ok ()
  | f :: rest =>
    match pyContainsKey f v with
    | .error e => .error e
    | .ok true => checkRequired rest v
    | .ok false => .error (.schemaViolation f)

/-- The first required field missing from a parsed JSON object's keys,
in the loop's left-to-right order over `required_fields`. -/
def firstMissing (fields : List (String × JsonValue)) : Option String :=
  required_fields.find? (fun f => !(fields.any (fun kv => kv.1 == f)))

/-- The `ValueError` message format of line 123. -/
def schemaViolationMessage (f : String) : String :=
  "Missing required field: " ++ f

/-- A stored `WorkoutRoutine` row (`models.py`, lines 67-81): integer
primary key, owning `user_id`, the five content columns, and the
server-assigned creation timestamp (modelled as a `Nat` tick).  The
content columns hold the parsed JSON values verbatim — the source stores
them with no transformation or type coercion. -/
structure WorkoutRoutine where
  id : Nat
  user_id : Nat
  name : JsonValue
  description : JsonValue
  exercises : JsonValue
  tips : JsonValue
  progression : JsonValue
  created_at : Nat

/-- A stored `WorkoutLog` row (`models.py`, lines 83-95). `duration` is
a Python float in the source; no claim computes with it, so it is
carried as an integer-valued quantity. -/
structure WorkoutLog where
  id : Nat
  user_id : Nat
  routine_id : Nat
  completed_exercises : List JsonValue
  notes : Option String
  duration : Int
  created_at : Nat

/-- The database session state: the two tables the module touches, an
autoincrement counter shared for fresh primary keys, and a clock tick
supplying `created_at` (`server_default=func.now()`). -/
structure DB where
  routines : List WorkoutRoutine
  logs : List WorkoutLog
  nextId : Nat
  now : Nat

/-- The mapped attribute names of the `WorkoutRoutine` declarative model
(`models.py`, lines 67-81): its columns and relationships. -/
def workoutRoutineAttrs : List String :=
  ["id", "user_id", "name", "description", "exercises", "tips",
   "progression", "created_at", "updated_at", "user", "workout_logs"]

/-- Whether a string begins with an underscore. -/
def startsWithUnderscore (k : String) : Bool :=
  match k.data with
  | [] => false
  | c :: _ => c == '_'

/-- `hasattr(cls_, k)` for the `WorkoutRoutine` declarative class — the
test the SQLAlchemy declarative constructor applies to each keyword
argument, raising `TypeError` exactly when it is false.  Class attribute
lookup sees, besides the mapped columns and relationships of
`models.py`, the declarative-base class attributes `metadata` and
`registry`, the metaclass method `mro`, and a body of
underscore-prefixed names (`__tablename__`, `__table__`, `__init__`,
`_sa_class_manager`, the dunder attributes of `object`/`type`, ...).
The underscore-prefixed family is open-ended and version-dependent, so
the model conservatively treats every underscore-prefixed name as a
present attribute: the `TypeError` branch below fires only on names
that are certainly not attributes of the class. -/
def workoutRoutineHasAttr (k : String) : Bool :=
  workoutRoutineAttrs.contains k || k == "metadata" || k == "registry"
    || k == "mro" || startsWithUnderscore k

/-- Python `dict` lookup on a parsed JSON object.  Parsed objects have
distinct keys, so the first match is the match. -/
def pyGet (fields : List (String × JsonValue)) (k : String) : Option JsonValue :=
  (fields.find? (fun kv => kv.1 == k)).map Prod.snd

/-- `WorkoutRoutine(user_id=current_user.id, **workout_data)`
(lines 126-129): keyword splat of the parsed object into the declarative
constructor.  Python raises `TypeError` if the splatted dict itself
carries `user_id` (passed twice); the declarative constructor raises
`TypeError` at the first keyword `k` with `hasattr(cls_, k)` false.
Otherwise the row is built with the five content columns taken verbatim
from the dict (per the claims proved below they are always present and
are the only keys on every input considered); `id` and `created_at` are
assigned by the database at insert (`db.add`/`db.commit`/`db.refresh`). -/
def mkWorkoutRoutine (uid : Nat) (fields : List (String × JsonValue)) (db : DB) :
    Except GenError WorkoutRoutine :=
  match fields.any (fun kv => kv.1 == "user_id") with
  | true => .error (.duplicateKeyword "user_id")
  | false =>
    match fields.find? (fun kv => !(workoutRoutineHasAttr kv.1)) with
    | some kv => .error (.invalidKeyword kv.1)
    | none =>
      .ok { id := db.nextId
            user_id := uid
            name := (pyGet fields "name").getD .null
            description := (pyGet fields "description").getD .null
            exercises := (pyGet fields "exercises").getD .null
            tips := (pyGet fields "tips").getD .null
            progression := (pyGet fields "progression").getD .null
            created_at := db.now }

/-- The post-inference part of the `generate` handler
(`generate_workout`, lines 116-148): parse outcome → required-field
validation → row construction → single write.  The inference call
itself is abstracted to its parsed outcome (`none` = the raw text was
not valid JSON).  Errors leave the session untouched: the source reaches
`db.add`/`db.commit` only after the loop and the constructor succeed. -/
def generate_workout (parsed : Option JsonValue) (uid : Nat) (db : DB) :
    DB × Except GenError WorkoutRoutine :=
  match parsed with
  | none => (db, .error .malformedResponse)
  | some v =>
    match checkRequired required_fields v with
    | .error e => (db, .error e)
    | .ok () =>
      match v with
      | .obj fields =>
        match mkWorkoutRoutine uid fields db with
        | .error e => (db, .error e)
        | .ok r =>
          ({ db with routines := db.routines ++ [r]
                     nextId := db.nextId + 1
                     now := db.now + 1 }, .ok r)
      | _ => (db, .error .splatNonMapping)

/-- Every failure of the generate path is surfaced as an HTTP 500: the
inner handler raises `HTTPException(status_code=500, ...)` for a JSON
parse failure (lines 138-141) and the outer one does for every other
exception (lines 145-148). -/
def genErrorStatusCode : GenError → Nat := fun _ => 500

/-- Request body of `POST /log` (`WorkoutLogCreate`, lines 39-43). -/
structure WorkoutLogCreate where
  routine_id : Nat
  completed_exercises : List JsonValue
  notes : Option String
  duration : Int

/-- Error of the `log` handler. -/
inductive LogError where
  | notFound
deriving DecidableEq, Repr

/-- `HTTPException(status_code=404, detail="Workout routine not found")`
(line 164). -/
def notFoundStatusCode : Nat := 404

/-- Detail string of the 404 (line 164). -/
def notFoundDetail : String := "Workout routine not found"

/-- The `log` handler (`log_workout`, lines 150-174): first query for a
routine with the given id owned by the caller; absent → 404 and no
write; present → insert one `WorkoutLog` row. -/
def log_workout (log : WorkoutLogCreate) (uid : Nat) (db : DB) :
    DB × Except LogError WorkoutLog :=
  match db.routines.find? (fun r => r.id == log.routine_id && r.user_id == uid) with
  | none => (db, .error .notFound)
  | some _ =>
    let row : WorkoutLog :=
      { id := db.nextId
        user_id := uid
        routine_id := log.routine_id
        completed_exercises := log.completed_exercises
        notes := log.notes
        duration := log.duration
        created_at := db.now }
    ({ db with logs := db.logs ++ [row]
               nextId := db.nextId + 1
               now := db.now + 1 }, .ok row)

/-- Insert into a list kept in descending order of `key`. -/
def insertDesc {α : Type} (key : α → Nat) (x : α) : List α → List α
  | [] => [x]
  | y :: ys => if key y ≤ key x then x :: y :: ys else y :: insertDesc key x ys

/-- Sort a list into descending order of `key`: the model of SQL
`ORDER BY ... DESC`. -/
def sortByKeyDesc {α : Type} (key : α → Nat) : List α → List α
  | [] => []
  | x :: xs => insertDesc key x (sortByKeyDesc key xs)

/-- The `history` handler (`get_workout_history`, lines 176-186):
the caller's `WorkoutLog` rows, newest first
(`filter(user_id == current_user.id).order_by(created_at.desc())`). -/
def get_workout_history (uid : Nat) (db : DB) : List WorkoutLog :=
  sortByKeyDesc (fun l => l.created_at) (db.logs.filter (fun l => l.user_id == uid))

/-- The routines-list handler (`get_workout_routines`, lines 188-198):
the caller's `WorkoutRoutine` rows, newest first. -/
def get_workout_routines (uid : Nat) (db : DB) : List WorkoutRoutine :=
  sortByKeyDesc (fun r => r.created_at) (db.routines.filter (fun r => r.user_id == uid))

/-- Request body of `POST /generate` (`WorkoutPrompt`, lines 45-51). -/
structure WorkoutPrompt where
  goal : String
  experience_level : String
  equipment_available : List String
  time_available : Int
  focus_areas : List String
  injuries : Option (List String)

/-- Python `", ".join(xs)`. -/
def joinComma : List String → String
  | [] => ""
  | [x] => x
  | x :: y :: ys => x ++ ", " ++ joinComma (y :: ys)

/-- The injuries slot of the template (line 62):
`", ".join(prompt.injuries) if prompt.injuries else "Ninguna"`.
Python truthiness makes both `None` and the empty list take the
`"Ninguna"` branch. -/
def injuriesText : Option (List String) → String
  | none => "Ninguna"
  | some [] => "Ninguna"
  | some l => joinComma l

/-- Template text before the goal slot (line 56-57). -/
def promptSeg1 : String :=
  "Genera una rutina de entrenamiento detallada con las siguientes especificaciones:    \n    - Objetivo: "

/-- Template text between the goal and experience-level slots. -/
def promptSeg2 : String := "\n    - Nivel de experiencia: "

/-- Template text before the equipment slot. -/
def promptSeg3 : String := "\n    - Equipo disponible: "

/-- Template text before the available-time slot. -/
def promptSeg4 : String := "\n    - Tiempo disponible: "

/-- Template text between the available-time and focus-areas slots. -/
def promptSeg5 : String := " minutos\n    - Áreas de enfoque: "

/-- Template text before the injuries slot. -/
def promptSeg6 : String := "\n    - Lesiones/Limitaciones: "

/-- The fixed tail of the template (lines 63-80): the literal example of
the JSON object shape the model must return.  The doubled braces of the
Python f-string render as single braces in the output. -/
def promptSeg7 : String :=
  "\n    \n    Por favor, proporciona la rutina en formato JSON con la siguiente estructura:\n    \x7b\n        \"name\": \"Nombre de la rutina\",\n        \"description\": \"Descripción detallada\",\n        \"exercises\": [\n            \x7b\n                \"name\": \"Nombre del ejercicio\",\n                \"sets\": número_de_series,\n                \"reps\": \"rango_de_repeticiones\",\n                \"rest\": \"tiempo_de_descanso\",\n                \"notes\": \"notas_técnicas\"\n            \x7d\n        ],\n        \"tips\": [\"consejos_importantes\"],\n        \"progression\": [\"sugerencias_de_progresión\"]\n    \x7d\n    "

/-- `format_workout_prompt` (lines 54-80): the pure prompt formatter.
Each slot of the f-string is the straight rendering of one input field:
`str` fields verbatim, lists through `", ".join`, the integer through
`str`, and the injuries slot through the truthiness conditional. -/
def format_workout_prompt (p : WorkoutPrompt) : String :=
  promptSeg1 ++ p.goal ++ promptSeg2 ++ p.experience_level ++ promptSeg3
    ++ joinComma p.equipment_available ++ promptSeg4
    ++ toString p.time_available ++ promptSeg5 ++ joinComma p.focus_areas
    ++ promptSeg6 ++ injuriesText p.injuries ++ promptSeg7

/-- `ContainsStr s sub`: `sub` occurs contiguously inside `s`. -/
def ContainsStr (s sub : String) : Prop :=
  ∃ a b, s = a ++ sub ++ b

/-! ## Helper lemmas -/

theorem str_empty_append (s : String) : "" ++ s = s := by
  apply String.ext
  rw [String.data_append]
  rfl

theorem str_append_empty (s : String) : s ++ "" = s := by
  apply String.ext
  rw [String.data_append]
  exact List.append_nil _

theorem containsStr_self (s : String) : ContainsStr s s :=
  ⟨"", "", by rw [str_empty_append, str_append_empty]⟩

theorem ContainsStr.appL {s sub : String} (h : ContainsStr s sub) (u : String) :
    ContainsStr (u ++ s) sub := by
  obtain ⟨a, b, rfl⟩ := h
  exact ⟨u ++ a, b, by simp [String.append_assoc]⟩

theorem ContainsStr.appR {s sub : String} (h : ContainsStr s sub) (u : String) :
    ContainsStr (s ++ u) sub := by
  obtain ⟨a, b, rfl⟩ := h
  exact ⟨a, b ++ u, by simp [String.append_assoc]⟩

theorem containsStr_joinComma {l : List String} {x : String} (hx : x ∈ l) :
    ContainsStr (joinComma l) x := by
  induction l with
  | nil => cases hx
  | cons a t ih =>
    cases t with
    | nil =>
      rcases List.mem_cons.mp hx with rfl | h0
      · exact containsStr_self x
      · cases h0
    | cons b u =>
      rcases List.mem_cons.mp hx with rfl | hmem
      · show ContainsStr (x ++ ", " ++ joinComma (b :: u)) x
        rw [String.append_assoc]
        exact (containsStr_self x).appR (", " ++ joinComma (b :: u))
      · exact (ih hmem).appL (a ++ ", ")

/-- `checkRequired` on a parsed object reports the first missing field
of the fixed left-to-right list, and succeeds when none is missing. -/
theorem checkRequired_obj (rs : List String) (fields : List (String × JsonValue)) :
    checkRequired rs (.obj fields) =
      match rs.find? (fun f => !(fields.any (fun kv => kv.1 == f))) with
      | some f => .error (.schemaViolation f)
      | none => .ok () := by
  induction rs with
  | nil => rfl
  | cons g rest ih =>
    by_cases h : fields.any (fun kv => kv.1 == g) = true
    · simp [checkRequired, pyContainsKey, h, List.find?_cons, ih]
    · rw [Bool.not_eq_true] at h
      simp [checkRequired, pyContainsKey, h, List.find?_cons]

theorem mem_insertDesc {α : Type} (key : α → Nat) (x y : α) (l : List α) :
    y ∈ insertDesc key x l ↔ y = x ∨ y ∈ l := by
  induction l with
  | nil => simp [insertDesc]
  | cons a t ih =>
    simp only [insertDesc]
    split
    · simp [List.mem_cons]
    · simp only [List.mem_cons, ih]
      tauto

theorem pairwise_insertDesc {α : Type} (key : α → Nat) (x : α) (l : List α)
    (h : l.Pairwise (fun a b => key b ≤ key a)) :
    (insertDesc key x l).Pairwise (fun a b => key b ≤ key a) := by
  induction l with
  | nil => simp [insertDesc]
  | cons a t ih =>
    rw [List.pairwise_cons] at h
    obtain ⟨ha, ht⟩ := h
    simp only [insertDesc]
    split
    · rename_i hax
      rw [List.pairwise_cons]
      refine ⟨?_, List.pairwise_cons.mpr ⟨ha, ht⟩⟩
      intro z hz
      rcases List.mem_cons.mp hz with rfl | hz'
      · exact hax
      · exact le_trans (ha z hz') hax
    · rename_i hax
      rw [List.pairwise_cons]
      refine ⟨?_, ih ht⟩
      intro z hz
      rw [mem_insertDesc] at hz
      rcases hz with rfl | hz'
      · exact Nat.le_of_lt (Nat.lt_of_not_le hax)
      · exact ha z hz'

theorem pairwise_sortByKeyDesc {α : Type} (key : α → Nat) (l : List α) :
    (sortByKeyDesc key l).Pairwise (fun a b => key b ≤ key a) := by
  induction l with
  | nil => simp [sortByKeyDesc]
  | cons x t ih => exact pairwise_insertDesc key x _ ih

theorem mem_sortByKeyDesc {α : Type} (key : α → Nat) (l : List α) (y : α) :
    y ∈ sortByKeyDesc key l ↔ y ∈ l := by
  induction l with
  | nil => simp [sortByKeyDesc]
  | cons x t ih => simp [sortByKeyDesc, mem_insertDesc, ih]

/-! ## Concrete inputs used by witnesses and counterexamples -/

/-- An empty database session. -/
def db0 : DB := { routines := [], logs := [], nextId := 1, now := 0 }

/-- A parsed object missing `description` and `tips` (several fields
missing at once). -/
def exFieldsMissing : List (String × JsonValue) :=
  [("name", .str "A"), ("exercises", .arr []), ("progression", .arr [])]

/-- The spec's scenario object: all five fields present, the three
sequence fields empty. -/
def exFields5 : List (String × JsonValue) :=
  [("name", .str "A"), ("description", .str "B"), ("exercises", .arr []),
   ("tips", .arr []), ("progression", .arr [])]

/-- The scenario object with one extra top-level key that is not a
`WorkoutRoutine` attribute. -/
def exFieldsExtra : List (String × JsonValue) :=
  exFields5 ++ [("foo", .null)]

/-- The scenario object with a different extra non-attribute key. -/
def exFieldsExtra2 : List (String × JsonValue) :=
  exFields5 ++ [("calories", .num 100)]

/-- A routine owned by user 2. -/
def rtn1 : WorkoutRoutine :=
  { id := 1, user_id := 2, name := .str "A", description := .str "B",
    exercises := .arr [], tips := .arr [], progression := .arr [],
    created_at := 0 }

/-- A database holding only `rtn1`. -/
def dbOneRoutine : DB := { routines := [rtn1], logs := [], nextId := 2, now := 1 }

/-- A log request for routine 1 — owned by user 2, not by user 1. -/
def logReq1 : WorkoutLogCreate :=
  { routine_id := 1, completed_exercises := [], notes := none, duration := 30 }

/-- The spec's scenario prompt, with no injuries given. -/
def promptEx : WorkoutPrompt :=
  { goal := "strength", experience_level := "beginner",
    equipment_available := ["dumbbells"], time_available := 45,
    focus_areas := ["upper body"], injuries := none }

/-! ## Claim theorems -/

/-- C1: for every parsed JSON object missing at least one of the five
required top-level fields, validation fails with the schema-violation
error (`ValueError`) naming the first missing field in the fixed
left-to-right order `name, description, exercises, tips, progression`,
even when several fields are missing, and the generate operation
surfaces that error with the database untouched. -/
theorem generate_schema_violation_first_missing
    (fields : List (String × JsonValue)) (uid : Nat) (db : DB) (f : String)
    (h : firstMissing fields = some f) :
    checkRequired required_fields (.obj fields) =
      .error (.schemaViolation f) ∧
    generate_workout (some (.obj fields)) uid db =
      (db, .error (.schemaViolation f)) ∧
    schemaViolationMessage f = "Missing required field: " ++ f := by
  rw [firstMissing] at h
  have hchk : checkRequired required_fields (.obj fields) =
      .error (.schemaViolation f) := by
    rw [checkRequired_obj, h]
  exact ⟨hchk, by simp [generate_workout, hchk], rfl⟩

/-- C1 witness: the object `exFieldsMissing` misses both `description`
and `tips`; the error names `description`, the first in canonical
order. -/
theorem generate_schema_violation_first_missing_witness :
    checkRequired required_fields (.obj exFieldsMissing) =
      .error (.schemaViolation "description") ∧
    generate_workout (some (.obj exFieldsMissing)) 1 db0 =
      (db0, .error (.schemaViolation "description")) ∧
    schemaViolationMessage "description" =
      "Missing required field: " ++ "description" :=
  generate_schema_violation_first_missing exFieldsMissing 1 db0 "description"
    (by decide)

/-- C2: when the raw model text is not valid JSON (`json.loads` raises
`JSONDecodeError`), the generate operation fails with the
malformed-response error — a constructor distinct from every downstream
error — leaves the database untouched, and surfaces the failure as an
HTTP 500 rather than swallowing it. -/
theorem generate_malformed_response (uid : Nat) (db : DB) :
    generate_workout none uid db = (db, .error .malformedResponse) ∧
    genErrorStatusCode .malformedResponse = 500 ∧
    (∀ f, GenError.malformedResponse ≠ GenError.schemaViolation f) ∧
    (∀ k, GenError.malformedResponse ≠ GenError.invalidKeyword k) ∧
    (∀ k, GenError.malformedResponse ≠ GenError.duplicateKeyword k) ∧
    GenError.malformedResponse ≠ GenError.splatNonMapping ∧
    GenError.malformedResponse ≠ GenError.notIterable := by
  refine ⟨rfl, rfl, ?_, ?_, ?_, ?_, ?_⟩ <;> intros <;> simp

/-- C3: a `WorkoutRoutine` row is written only after validation
succeeds: whenever the generate operation ends in an error — parse
failure, required-field violation, or constructor failure — the
database state it returns is exactly the input state. -/
theorem generate_error_leaves_db (parsed : Option JsonValue) (uid : Nat)
    (db : DB) (e : GenError)
    (h : (generate_workout parsed uid db).2 = Except.error e) :
    (generate_workout parsed uid db).1 = db := by
  cases parsed with
  | none => simp [generate_workout]
  | some v =>
    cases hc : checkRequired required_fields v with
    | error e2 => simp [generate_workout, hc]
    | ok u =>
      cases u
      cases v with
      | obj fields =>
        cases hm : mkWorkoutRoutine uid fields db with
        | error e2 => simp [generate_workout, hc, hm]
        | ok r => simp [generate_workout, hc, hm] at h
      | null => simp [generate_workout, hc]
      | bool b => simp [generate_workout, hc]
      | num n => simp [generate_workout, hc]
      | str s => simp [generate_workout, hc]
      | arr xs => simp [generate_workout, hc]

/-- C3 witness: a parse failure on the empty database leaves it empty. -/
theorem generate_error_leaves_db_witness :
    (generate_workout none 1 db0).1 = db0 :=
  generate_error_leaves_db none 1 db0 .malformedResponse rfl

/-- C4: when no routine with the requested id is owned by the calling
user — including when the routine exists but belongs to another user —
the log operation fails with the not-found error mapped to a 404
response, and no `WorkoutLog` row is written (the database state is
returned unchanged: the ownership check precedes the write). -/
theorem log_workout_not_found (log : WorkoutLogCreate) (uid : Nat) (db : DB)
    (h : ∀ r ∈ db.routines, ¬(r.id = log.routine_id ∧ r.user_id = uid)) :
    log_workout log uid db = (db, .error .notFound) ∧
    notFoundStatusCode = 404 ∧
    notFoundDetail = "Workout routine not found" := by
  have hf : db.routines.find?
      (fun r => r.id == log.routine_id && r.user_id == uid) = none := by
    rw [List.find?_eq_none]
    intro r hr
    simp only [Bool.and_eq_true, beq_iff_eq]
    exact h r hr
  exact ⟨by simp [log_workout, hf], rfl, rfl⟩

/-- C4 witness: user 1 logging against routine 1, which exists but is
owned by user 2, gets the 404 and writes nothing. -/
theorem log_workout_not_found_witness :
    log_workout logReq1 1 dbOneRoutine = (dbOneRoutine, .error .notFound) ∧
    notFoundStatusCode = 404 ∧
    notFoundDetail = "Workout routine not found" :=
  log_workout_not_found logReq1 1 dbOneRoutine (by decide)

/-- C5 (amended): for every parsed JSON object whose top-level keys are
exactly the five required fields — in any order, including empty
`exercises`/`tips`/`progression` sequences — validation succeeds and
passes the object through unmodified: the generate operation appends
exactly one new routine owned by the calling user whose stored columns
are the object's field values verbatim (dict lookup, no
transformation). -/
theorem generate_valid_stores_verbatim
    (fields : List (String × JsonValue)) (uid : Nat) (db : DB)
    (hkeys : ∀ f, f ∈ fields.map Prod.fst ↔ f ∈ required_fields) :
    checkRequired required_fields (.obj fields) = .ok () ∧
    ∃ r : WorkoutRoutine,
      generate_workout (some (.obj fields)) uid db =
        ({ db with routines := db.routines ++ [r]
                   nextId := db.nextId + 1
                   now := db.now + 1 }, .ok r) ∧
      r.user_id = uid ∧
      r.name = (pyGet fields "name").getD .null ∧
      r.description = (pyGet fields "description").getD .null ∧
      r.exercises = (pyGet fields "exercises").getD .null ∧
      r.tips = (pyGet fields "tips").getD .null ∧
      r.progression = (pyGet fields "progression").getD .null := by
  have hany : ∀ f ∈ required_fields,
      fields.any (fun kv => kv.1 == f) = true := by
    intro f hf
    obtain ⟨kv, hkv, hfst⟩ := List.mem_map.mp ((hkeys f).mpr hf)
    rw [List.any_eq_true]
    exact ⟨kv, hkv, by simp [hfst]⟩
  have hchk : checkRequired required_fields (.obj fields) = .ok () := by
    rw [checkRequired_obj]
    have hn : required_fields.find?
        (fun f => !(fields.any (fun kv => kv.1 == f))) = none := by
      rw [List.find?_eq_none]
      intro f hf
      simp [hany f hf]
    rw [hn]
  have hnouser : fields.any (fun kv => kv.1 == "user_id") = false := by
    rw [List.any_eq_false]
    intro kv hkv
    simp only [beq_iff_eq]
    intro he
    have h2 := (hkeys kv.1).mp (List.mem_map.mpr ⟨kv, hkv, rfl⟩)
    rw [he] at h2
    simp [required_fields] at h2
  have hvalid : fields.find?
      (fun kv => !(workoutRoutineHasAttr kv.1)) = none := by
    rw [List.find?_eq_none]
    intro kv hkv
    have h2 := (hkeys kv.1).mp (List.mem_map.mpr ⟨kv, hkv, rfl⟩)
    simp only [required_fields, List.mem_cons, List.not_mem_nil, or_false] at h2
    rcases h2 with h2 | h2 | h2 | h2 | h2 <;> rw [h2] <;> decide
  refine ⟨hchk,
    { id := db.nextId
      user_id := uid
      name := (pyGet fields "name").getD .null
      description := (pyGet fields "description").getD .null
      exercises := (pyGet fields "exercises").getD .null
      tips := (pyGet fields "tips").getD .null
      progression := (pyGet fields "progression").getD .null
      created_at := db.now }, ?_, rfl, rfl, rfl, rfl, rfl, rfl⟩
  simp only [generate_workout, hchk, mkWorkoutRoutine, hnouser, hvalid]

/-- C5 witness: the spec's scenario object — all five fields, empty
sequences — is validated and stored verbatim for user 7. -/
theorem generate_valid_stores_verbatim_witness :
    checkRequired required_fields (.obj exFields5) = .ok () ∧
    ∃ r : WorkoutRoutine,
      generate_workout (some (.obj exFields5)) 7 db0 =
        ({ db0 with routines := db0.routines ++ [r]
                    nextId := db0.nextId + 1
                    now := db0.now + 1 }, .ok r) ∧
      r.user_id = 7 ∧
      r.name = (pyGet exFields5 "name").getD .null ∧
      r.description = (pyGet exFields5 "description").getD .null ∧
      r.exercises = (pyGet exFields5 "exercises").getD .null ∧
      r.tips = (pyGet exFields5 "tips").getD .null ∧
      r.progression = (pyGet exFields5 "progression").getD .null :=
  generate_valid_stores_verbatim exFields5 7 db0
    (by intro f; simp [exFields5, required_fields])

/-- C5 counterexample: the object `exFieldsExtra` parses as a JSON
object containing all five required fields, so it satisfies the
original claim's hypothesis, yet no routine is stored: the extra key
`foo` is splatted into the record constructor, the generate operation
errors, and the routines table stays empty. -/
theorem generate_valid_stores_counterexample :
    checkRequired required_fields (.obj exFieldsExtra) = .ok () ∧
    generate_workout (some (.obj exFieldsExtra)) 7 db0 =
      (db0, .error (.invalidKeyword "foo")) ∧
    (generate_workout (some (.obj exFieldsExtra)) 7 db0).1.routines = [] :=
  ⟨rfl, rfl, rfl⟩

/-- C6: whenever the prompt's injuries field is absent (`None`) or the
empty list, the injuries slot of the formatted prompt is the literal
placeholder `"Ninguna"` — not an empty list rendering — so the output
decomposes around `"Ninguna"` and contains it. -/
theorem format_prompt_ninguna (p : WorkoutPrompt)
    (h : p.injuries = none ∨ p.injuries = some []) :
    injuriesText p.injuries = "Ninguna" ∧
    format_workout_prompt p =
      promptSeg1 ++ p.goal ++ promptSeg2 ++ p.experience_level ++ promptSeg3
        ++ joinComma p.equipment_available ++ promptSeg4
        ++ toString p.time_available ++ promptSeg5 ++ joinComma p.focus_areas
        ++ promptSeg6 ++ "Ninguna" ++ promptSeg7 ∧
    ContainsStr (format_workout_prompt p) "Ninguna" := by
  have hi : injuriesText p.injuries = "Ninguna" := by
    rcases h with h | h <;> rw [h] <;> rfl
  refine ⟨hi, ?_, ?_⟩
  · simp only [format_workout_prompt, hi]
  · exact ⟨promptSeg1 ++ p.goal ++ promptSeg2 ++ p.experience_level ++ promptSeg3
        ++ joinComma p.equipment_available ++ promptSeg4
        ++ toString p.time_available ++ promptSeg5 ++ joinComma p.focus_areas
        ++ promptSeg6, promptSeg7, by simp only [format_workout_prompt, hi]⟩

/-- C6 witness: the spec's scenario prompt (injuries absent) renders
the placeholder. -/
theorem format_prompt_ninguna_witness :
    injuriesText promptEx.injuries = "Ninguna" ∧
    format_workout_prompt promptEx =
      promptSeg1 ++ promptEx.goal ++ promptSeg2 ++ promptEx.experience_level
        ++ promptSeg3 ++ joinComma promptEx.equipment_available ++ promptSeg4
        ++ toString promptEx.time_available ++ promptSeg5
        ++ joinComma promptEx.focus_areas ++ promptSeg6 ++ "Ninguna"
        ++ promptSeg7 ∧
    ContainsStr (format_workout_prompt promptEx) "Ninguna" :=
  format_prompt_ninguna promptEx (Or.inl rfl)

/-- C7: the prompt formatter is pure and deterministic — the same input
yields byte-identical output — and the output contains the textual
representation of every input field verbatim: the goal, the experience
level, each equipment item, the decimal rendering of the available
time, each focus area, and each listed injury when present. -/
theorem format_prompt_deterministic_complete (p : WorkoutPrompt) :
    format_workout_prompt p = format_workout_prompt p ∧
    ContainsStr (format_workout_prompt p) p.goal ∧
    ContainsStr (format_workout_prompt p) p.experience_level ∧
    (∀ e ∈ p.equipment_available, ContainsStr (format_workout_prompt p) e) ∧
    ContainsStr (format_workout_prompt p) (toString p.time_available) ∧
    (∀ a ∈ p.focus_areas, ContainsStr (format_workout_prompt p) a) ∧
    (∀ l, p.injuries = some l → ∀ x ∈ l,
       ContainsStr (format_workout_prompt p) x) := by
  refine ⟨rfl, ?_, ?_, ?_, ?_, ?_, ?_⟩
  · exact (((((((((((((containsStr_self p.goal).appL
      promptSeg1).appR promptSeg2).appR p.experience_level).appR
      promptSeg3).appR (joinComma p.equipment_available)).appR
      promptSeg4).appR (toString p.time_available)).appR
      promptSeg5).appR (joinComma p.focus_areas)).appR
      promptSeg6).appR (injuriesText p.injuries)).appR promptSeg7)
  · exact ((((((((((((containsStr_self p.experience_level).appL
      (promptSeg1 ++ p.goal ++ promptSeg2)).appR
      promptSeg3).appR (joinComma p.equipment_available)).appR
      promptSeg4).appR (toString p.time_available)).appR
      promptSeg5).appR (joinComma p.focus_areas)).appR
      promptSeg6).appR (injuriesText p.injuries)).appR promptSeg7))
  · intro e he
    exact (((((((((containsStr_joinComma he).appL
      (promptSeg1 ++ p.goal ++ promptSeg2 ++ p.experience_level
        ++ promptSeg3)).appR
      promptSeg4).appR (toString p.time_available)).appR
      promptSeg5).appR (joinComma p.focus_areas)).appR
      promptSeg6).appR (injuriesText p.injuries)).appR promptSeg7)
  · exact ((((((((containsStr_self (toString p.time_available)).appL
      (promptSeg1 ++ p.goal ++ promptSeg2 ++ p.experience_level
        ++ promptSeg3 ++ joinComma p.equipment_available
        ++ promptSeg4)).appR
      promptSeg5).appR (joinComma p.focus_areas)).appR
      promptSeg6).appR (injuriesText p.injuries)).appR promptSeg7))
  · intro a ha
    exact (((((containsStr_joinComma ha).appL
      (promptSeg1 ++ p.goal ++ promptSeg2 ++ p.experience_level
        ++ promptSeg3 ++ joinComma p.equipment_available
        ++ promptSeg4 ++ toString p.time_available ++ promptSeg5)).appR
      promptSeg6).appR (injuriesText p.injuries)).appR promptSeg7)
  · intro l hl x hx
    cases l with
    | nil => cases hx
    | cons y ys =>
      have base := containsStr_joinComma hx
      unfold format_workout_prompt
      rw [hl]
      exact ((base.appL
        (promptSeg1 ++ p.goal ++ promptSeg2 ++ p.experience_level
          ++ promptSeg3 ++ joinComma p.equipment_available
          ++ promptSeg4 ++ toString p.time_available ++ promptSeg5
          ++ joinComma p.focus_areas ++ promptSeg6)).appR promptSeg7)

/-- C8: the routines-list and history handlers return exactly the
calling user's rows — a row is in the result iff it belongs to that
user in the table — ordered by creation time descending (each element's
creation time is at least that of every later element). -/
theorem list_handlers_own_rows_newest_first (uid : Nat) (db : DB) :
    (∀ r, r ∈ get_workout_routines uid db ↔
       r ∈ db.routines ∧ r.user_id = uid) ∧
    (get_workout_routines uid db).Pairwise
      (fun a b => b.created_at ≤ a.created_at) ∧
    (∀ l, l ∈ get_workout_history uid db ↔ l ∈ db.logs ∧ l.user_id = uid) ∧
    (get_workout_history uid db).Pairwise
      (fun a b => b.created_at ≤ a.created_at) := by
  refine ⟨?_, ?_, ?_, ?_⟩
  · intro r
    rw [get_workout_routines, mem_sortByKeyDesc, List.mem_filter]
    simp
  · exact pairwise_sortByKeyDesc _ _
  · intro l
    rw [get_workout_history, mem_sortByKeyDesc, List.mem_filter]
    simp
  · exact pairwise_sortByKeyDesc _ _

/-- C10: for every parsed JSON object containing all five required
fields plus at least one extra top-level key that is not an attribute
of the `WorkoutRoutine` record — `hasattr(WorkoutRoutine, key)` false,
modelled by `workoutRoutineHasAttr key = false`: not a mapped column or
relationship, not `metadata`/`registry`/`mro`, not underscore-prefixed
— validation passes, yet the generate operation fails with a generic
500 server error — the object's keys are splatted directly into the
record constructor — and no routine is stored (the database is returned
unchanged); the error is neither a schema violation nor the
malformed-response error, so passing validation does not guarantee
successful persistence. -/
theorem generate_extra_key_fails
    (fields : List (String × JsonValue)) (uid : Nat) (db : DB) (k : String)
    (hall : ∀ f ∈ required_fields, f ∈ fields.map Prod.fst)
    (hk : k ∈ fields.map Prod.fst)
    (hknot : workoutRoutineHasAttr k = false) :
    checkRequired required_fields (.obj fields) = .ok () ∧
    ∃ e : GenError,
      generate_workout (some (.obj fields)) uid db = (db, .error e) ∧
      genErrorStatusCode e = 500 ∧
      (∀ f, e ≠ .schemaViolation f) ∧ e ≠ .malformedResponse := by
  have hany : ∀ f ∈ required_fields,
      fields.any (fun kv => kv.1 == f) = true := by
    intro f hf
    obtain ⟨kv, hkv, hfst⟩ := List.mem_map.mp (hall f hf)
    rw [List.any_eq_true]
    exact ⟨kv, hkv, by simp [hfst]⟩
  have hchk : checkRequired required_fields (.obj fields) = .ok () := by
    rw [checkRequired_obj]
    have hn : required_fields.find?
        (fun f => !(fields.any (fun kv => kv.1 == f))) = none := by
      rw [List.find?_eq_none]
      intro f hf
      simp [hany f hf]
    rw [hn]
  refine ⟨hchk, ?_⟩
  cases hdup : fields.any (fun kv => kv.1 == "user_id") with
  | true =>
    refine ⟨.duplicateKeyword "user_id", ?_, rfl, by intro f; simp, by simp⟩
    simp only [generate_workout, hchk, mkWorkoutRoutine, hdup]
  | false =>
    have hsome : (fields.find?
        (fun kv => !(workoutRoutineHasAttr kv.1))).isSome := by
      rw [List.find?_isSome]
      obtain ⟨kv, hkv, hfst⟩ := List.mem_map.mp hk
      refine ⟨kv, hkv, ?_⟩
      rw [hfst, hknot]
      rfl
    obtain ⟨kv0, hfind⟩ := Option.isSome_iff_exists.mp hsome
    refine ⟨.invalidKeyword kv0.1, ?_, rfl, by intro f; simp, by simp⟩
    simp only [generate_workout, hchk, mkWorkoutRoutine, hdup, hfind]

/-- C10 witness: the scenario object extended with the non-attribute
key `calories` passes validation but the generate operation fails with
a 500 and stores nothing. -/
theorem generate_extra_key_fails_witness :
    checkRequired required_fields (.obj exFieldsExtra2) = .ok () ∧
    ∃ e : GenError,
      generate_workout (some (.obj exFieldsExtra2)) 3 db0 = (db0, .error e) ∧
      genErrorStatusCode e = 500 ∧
      (∀ f, e ≠ .schemaViolation f) ∧ e ≠ .malformedResponse :=
  generate_extra_key_fails exFieldsExtra2 3 db0 "calories"
    (by decide) (by decide) (by decide)
